import Mathlib

/-!
# Verification of the ESP32Touch button state machine and dispatch engine

Shallow embedding of the per-channel configuration store, duration
classifier, channel state machine, dispatch engine and calibration routine
of `src/esp32_touch.cpp` / `src/esp32_touch.h` (class `ESP32Touch`),
together with proofs about them.

Modelling conventions:
* `uint16_t` sensor values and thresholds are `Nat` (the store into the
  `uint16_t` threshold array applies `% 65536` where the computed value can
  exceed that range);
* `long` millisecond timestamps are `Int`;
* the `std::function` callback slots are `Option Nat`, a callback being
  identified by an opaque id, `none` standing for an empty/null function
  object (the source's `if (cb) cb();` guard becomes `Option.toList`);
* the per-pad static arrays are total maps `Nat → Channel` (the C arrays
  are written at the caller-supplied index without any bounds check);
* the `std::map<BUTTON_STATE, float>` boundary table holds the exact
  small constants 50, 300 and 2000, so comparing the `long` time
  difference against them as `Int` is faithful.
-/

namespace ESP32Touch

/-- `TOUCH_PAD_MAX` from the ESP-IDF touch driver: ten touch pads. -/
def TOUCH_PAD_MAX : Nat := 10

/-- `enum INSTANTANEOUS_BUTTON_STATE`. -/
inductive INSTANTANEOUS_BUTTON_STATE where
  | PRESSED
  | NOT_PRESSED
  deriving DecidableEq, Repr

export INSTANTANEOUS_BUTTON_STATE (PRESSED NOT_PRESSED)

/-- `enum BUTTON_STATE` (without the `NUM_STATES_DONT_USE` sentinel). -/
inductive BUTTON_STATE where
  | NO_PRESS
  | SHORT_PRESSED
  | MEDIUM_PRESSED
  | LONG_PRESSED
  deriving DecidableEq, Repr

export BUTTON_STATE (NO_PRESS SHORT_PRESSED MEDIUM_PRESSED LONG_PRESSED)

/-- `enum TRIGGER_MODE`. -/
inductive TRIGGER_MODE where
  | RISE
  | FALL
  deriving DecidableEq, Repr

export TRIGGER_MODE (RISE FALL)

/-- `static constexpr int threshold_inactive = 0;`. -/
def threshold_inactive : Nat := 0

/-- One touch pad's slice of the static per-pad arrays of `ESP32Touch`. -/
structure Channel where
  s_pad_threshold_percent : Nat
  s_pad_enabled : Bool
  s_pad_is_pressed : Bool
  s_pad_filtered_value : Nat
  s_pad_threshold : Nat
  s_pad_callback : BUTTON_STATE → Option Nat
  s_pad_state : BUTTON_STATE
  s_pad_instantaneous_state : INSTANTANEOUS_BUTTON_STATE
  s_pad_initial_press_time : Int
  s_pad_trigger_mode : TRIGGER_MODE

/-- The configuration store: all per-pad arrays, indexed by pad number. -/
def TouchState : Type := Nat → Channel

/-- `ESP32Touch::initializeButton`: reset enabled flag, legacy pressed
flag, threshold, every callback slot and the duration class of one pad. -/
def initializeButton (s : TouchState) (input_number : Nat) : TouchState :=
  fun i =>
    if i = input_number then
      { s i with
        s_pad_enabled := false
        s_pad_is_pressed := false
        s_pad_threshold := threshold_inactive
        s_pad_callback := fun _ => none
        s_pad_state := NO_PRESS }
    else s i

/-- `ESP32Touch::initializeButtons`: apply `initializeButton` to pads
`0 .. TOUCH_PAD_MAX - 1`. -/
def initializeButtons (s : TouchState) : TouchState :=
  (List.range TOUCH_PAD_MAX).foldl initializeButton s

/-- `ESP32Touch::disableButton`: like `initializeButton` but without
touching the threshold. -/
def disableButton (s : TouchState) (input_number : Nat) : TouchState :=
  fun i =>
    if i = input_number then
      { s i with
        s_pad_enabled := false
        s_pad_is_pressed := false
        s_pad_callback := fun _ => none
        s_pad_state := NO_PRESS }
    else s i

/-- `ESP32Touch::disableAllButtons`. -/
def disableAllButtons (s : TouchState) : TouchState :=
  (List.range TOUCH_PAD_MAX).foldl disableButton s

/-- `ESP32Touch::configure_input`: unconditionally (the source performs no
range check on `input_number`) enable the pad, store the threshold percent,
store the callback in the slot of the given button state, reset the duration
class and set the trigger mode. -/
def configure_input (s : TouchState) (input_number : Nat)
    (threshold_percent : Nat) (callback : Option Nat)
    (buttonState : BUTTON_STATE) (edgeTrigger : TRIGGER_MODE) : TouchState :=
  fun i =>
    if i = input_number then
      { s i with
        s_pad_enabled := true
        s_pad_threshold_percent := threshold_percent
        s_pad_callback := fun k =>
          if k = buttonState then callback else (s i).s_pad_callback k
        s_pad_state := NO_PRESS
        s_pad_trigger_mode := edgeTrigger }
    else s i

/-- `ESP32Touch::calibrate_thresholds`: for every enabled pad in range,
read the idle baseline from the external sampler and store
`baseline * threshold_percent / 100` (computed in `uint32_t`, truncating
division, then narrowed to the `uint16_t` threshold array). -/
def calibrate_thresholds (baseline : Nat → Nat) (s : TouchState) : TouchState :=
  fun i =>
    if i < TOUCH_PAD_MAX ∧ (s i).s_pad_enabled then
      { s i with
        s_pad_threshold :=
          baseline i * (s i).s_pad_threshold_percent / 100 % 65536 }
    else s i

/-- `ESP32Touch::getInstantaneousButtonState`: pressed exactly when the
filtered value is strictly below the threshold. -/
def getInstantaneousButtonState (c : Channel) : INSTANTANEOUS_BUTTON_STATE :=
  if c.s_pad_filtered_value < c.s_pad_threshold then PRESSED else NOT_PRESSED

/-- The boundary table `BUTTON_THRESHOLD_TIMES_MS` (`std::map` defaulting
to 0 for an absent key). -/
def BUTTON_THRESHOLD_TIMES_MS : BUTTON_STATE → Int
  | SHORT_PRESSED => 50
  | MEDIUM_PRESSED => 300
  | LONG_PRESSED => 2000
  | NO_PRESS => 0

/-- The duration-classifier if-chain from `ESP32Touch::updateButtonState`:
highest boundary first; when no boundary is met the previous duration class
is left as it is. -/
def classifyStep (prev : BUTTON_STATE) (timeDiff : Int) : BUTTON_STATE :=
  if timeDiff ≥ BUTTON_THRESHOLD_TIMES_MS LONG_PRESSED then LONG_PRESSED
  else if timeDiff ≥ BUTTON_THRESHOLD_TIMES_MS MEDIUM_PRESSED then MEDIUM_PRESSED
  else if timeDiff ≥ BUTTON_THRESHOLD_TIMES_MS SHORT_PRESSED then SHORT_PRESSED
  else prev

/-- `ESP32Touch::updateButtonState` for one pad, with `now` standing for
the `millis()` reading of this tick. -/
def updateButtonState (now : Int) (c : Channel) : Channel :=
  let lastButtonState := c.s_pad_instantaneous_state
  let currentButtonState := getInstantaneousButtonState c
  let c1 :=
    if currentButtonState = PRESSED then
      if lastButtonState = NOT_PRESSED then
        { c with s_pad_initial_press_time := now }
      else
        { c with
          s_pad_state :=
            classifyStep c.s_pad_state (now - c.s_pad_initial_press_time) }
    else
      { c with s_pad_state := NO_PRESS }
  { c1 with s_pad_instantaneous_state := currentButtonState }

/-- The per-pad body of `ESP32Touch::dispatch_callbacks`, after
`updateButtonState` has run: the list of callback ids invoked this tick
(`lastButtonState` is the duration class snapshotted before the update). -/
def fired_for (lastButtonState : BUTTON_STATE) (c : Channel) : List Nat :=
  if c.s_pad_trigger_mode = RISE ∧ c.s_pad_state ≠ NO_PRESS then
    if lastButtonState ≠ c.s_pad_state then
      (c.s_pad_callback c.s_pad_state).toList
    else []
  else if c.s_pad_trigger_mode = FALL ∧ c.s_pad_state = NO_PRESS then
    if lastButtonState ≠ c.s_pad_state then
      (c.s_pad_callback lastButtonState).toList
    else []
  else []

/-- One enabled-channel iteration of `ESP32Touch::dispatch_callbacks`:
latch the externally sampled filtered value, snapshot the duration class,
advance the state machine, and fire per the trigger mode; a disabled pad is
skipped entirely. Returns the new channel and the callback ids invoked. -/
def dispatch_channel (filtered : Nat) (now : Int) (c : Channel) :
    Channel × List Nat :=
  if c.s_pad_enabled then
    let lastButtonState := c.s_pad_state
    let c1 := updateButtonState now { c with s_pad_filtered_value := filtered }
    (c1, fired_for lastButtonState c1)
  else (c, [])

/-- `ESP32Touch::dispatch_callbacks`: one timer tick over all pads, with
the filtered values latched by `filter_read_cb`. -/
def dispatch_callbacks (filtered : Nat → Nat) (now : Int) (s : TouchState) :
    TouchState × List Nat :=
  (List.range TOUCH_PAD_MAX).foldl
    (fun acc i =>
      let r := dispatch_channel (filtered i) now (acc.1 i)
      (fun j => if j = i then r.1 else acc.1 j, acc.2 ++ r.2))
    (s, [])

/-- Iterated dispatch of one channel over a list of ticks, each tick being
a pair (filtered value, now); collects all fired callback ids. -/
def runDispatch (c : Channel) : List (Nat × Int) → Channel × List Nat
  | [] => (c, [])
  | t :: ts =>
    let r := dispatch_channel t.1 t.2 c
    let rest := runDispatch r.1 ts
    (rest.1, r.2 ++ rest.2)

/-- One state-machine tick of one channel: latch the filtered value, then
run `updateButtonState`. -/
def pressTick (c : Channel) (t : Nat × Int) : Channel :=
  updateButtonState t.2 { c with s_pad_filtered_value := t.1 }

/-- The duration classes observed after each successive state-machine
tick. -/
def classTrace (c : Channel) : List (Nat × Int) → List BUTTON_STATE
  | [] => []
  | t :: ts => (pressTick c t).s_pad_state :: classTrace (pressTick c t) ts

/-- Rank of a duration class in the order NoPress < Short < Medium < Long. -/
def rank : BUTTON_STATE → Nat
  | NO_PRESS => 0
  | SHORT_PRESSED => 1
  | MEDIUM_PRESSED => 2
  | LONG_PRESSED => 3

/-- A concrete channel used to instantiate theorems: enabled, threshold
100, mid-press defaults. -/
def sampleChannel : Channel where
  s_pad_threshold_percent := 50
  s_pad_enabled := true
  s_pad_is_pressed := false
  s_pad_filtered_value := 200
  s_pad_threshold := 100
  s_pad_callback := fun _ => none
  s_pad_state := NO_PRESS
  s_pad_instantaneous_state := NOT_PRESSED
  s_pad_initial_press_time := 0
  s_pad_trigger_mode := RISE

/-- The all-zero channel corresponding to C++ static zero-initialisation
of the per-pad arrays (note enum value 0 is `PRESSED` and `RISE`). -/
def zeroChannel : Channel where
  s_pad_threshold_percent := 0
  s_pad_enabled := false
  s_pad_is_pressed := false
  s_pad_filtered_value := 0
  s_pad_threshold := 0
  s_pad_callback := fun _ => none
  s_pad_state := NO_PRESS
  s_pad_instantaneous_state := PRESSED
  s_pad_initial_press_time := 0
  s_pad_trigger_mode := RISE

/-- The store right after construction: static zero-initialisation
followed by `initializeButtons`. -/
def bootState : TouchState := initializeButtons fun _ => zeroChannel

/-- A concrete pressed-continuation channel (threshold 100, filtered
reading 80, press started at time 0), used for C4. -/
def c4Channel : Channel :=
  { sampleChannel with
    s_pad_filtered_value := 80
    s_pad_instantaneous_state := PRESSED }

/-- A concrete RISE-mode channel with a `SHORT_PRESSED` callback, mid
press, used for C2. -/
def riseChannel : Channel :=
  { sampleChannel with
    s_pad_instantaneous_state := PRESSED
    s_pad_callback := fun k => if k = SHORT_PRESSED then some 7 else none }

/-- A concrete FALL-mode channel held in the `MEDIUM_PRESSED` class with a
`MEDIUM_PRESSED` callback, used for C3. -/
def fallChannel : Channel :=
  { sampleChannel with
    s_pad_instantaneous_state := PRESSED
    s_pad_state := MEDIUM_PRESSED
    s_pad_trigger_mode := FALL
    s_pad_callback := fun k => if k = MEDIUM_PRESSED then some 9 else none }

/-- A concrete enabled channel whose threshold still holds the inert
default 0, with callbacks in every slot, used for C10. -/
def neverCalibratedChannel : Channel :=
  { sampleChannel with
    s_pad_threshold := 0
    s_pad_callback := fun _ => some 3 }

/-- A concrete store with pad 3 configured, used for C7. -/
def calibDemoState : TouchState :=
  configure_input bootState 3 50 (some 1) SHORT_PRESSED RISE

end ESP32Touch

namespace ESP32Touch

/-! ## Characterisations of one state-machine tick -/

/-- A pressed-continuation tick: both the stored instantaneous state and
the freshly computed one are `PRESSED`, so the duration class advances
through the boundary if-chain and the press start time is kept. -/
theorem pressTick_pressed (c : Channel) (f : Nat) (n : Int)
    (hinst : c.s_pad_instantaneous_state = PRESSED)
    (hf : f < c.s_pad_threshold) :
    pressTick c (f, n) =
      { c with
        s_pad_filtered_value := f
        s_pad_state := classifyStep c.s_pad_state (n - c.s_pad_initial_press_time)
        s_pad_instantaneous_state := PRESSED } := by
  unfold pressTick updateButtonState getInstantaneousButtonState
  simp [hf, hinst]

/-- A rising-edge tick: the press start time is recorded and the duration
class is left untouched. -/
theorem pressTick_risingEdge (c : Channel) (f : Nat) (n : Int)
    (hinst : c.s_pad_instantaneous_state = NOT_PRESSED)
    (hf : f < c.s_pad_threshold) :
    pressTick c (f, n) =
      { c with
        s_pad_filtered_value := f
        s_pad_initial_press_time := n
        s_pad_instantaneous_state := PRESSED } := by
  unfold pressTick updateButtonState getInstantaneousButtonState
  simp [hf, hinst]

/-- A released tick: the duration class is reset unconditionally. -/
theorem pressTick_release (c : Channel) (f : Nat) (n : Int)
    (hf : ¬ f < c.s_pad_threshold) :
    pressTick c (f, n) =
      { c with
        s_pad_filtered_value := f
        s_pad_state := NO_PRESS
        s_pad_instantaneous_state := NOT_PRESSED } := by
  unfold pressTick updateButtonState getInstantaneousButtonState
  simp [hf]

/-- `updateButtonState` only writes the runtime fields: the configuration
fields and the latched filtered value are untouched. -/
theorem updateButtonState_preserves (now : Int) (c : Channel) :
    (updateButtonState now c).s_pad_enabled = c.s_pad_enabled ∧
    (updateButtonState now c).s_pad_threshold = c.s_pad_threshold ∧
    (updateButtonState now c).s_pad_threshold_percent = c.s_pad_threshold_percent ∧
    (updateButtonState now c).s_pad_callback = c.s_pad_callback ∧
    (updateButtonState now c).s_pad_trigger_mode = c.s_pad_trigger_mode ∧
    (updateButtonState now c).s_pad_filtered_value = c.s_pad_filtered_value := by
  unfold updateButtonState
  dsimp only
  split
  · split <;> exact ⟨rfl, rfl, rfl, rfl, rfl, rfl⟩
  · exact ⟨rfl, rfl, rfl, rfl, rfl, rfl⟩

/-- `pressTick` preserves the configuration fields. -/
theorem pressTick_preserves (c : Channel) (t : Nat × Int) :
    (pressTick c t).s_pad_enabled = c.s_pad_enabled ∧
    (pressTick c t).s_pad_threshold = c.s_pad_threshold ∧
    (pressTick c t).s_pad_callback = c.s_pad_callback ∧
    (pressTick c t).s_pad_trigger_mode = c.s_pad_trigger_mode := by
  unfold pressTick
  obtain ⟨h1, h2, h3, h4, h5, h6⟩ :=
    updateButtonState_preserves t.2 { c with s_pad_filtered_value := t.1 }
  exact ⟨h1, h2, h4, h5⟩

/-- On an enabled channel a dispatch iteration is a state-machine tick
followed by `fired_for` on the pre-tick duration class snapshot. -/
theorem dispatch_channel_enabled (filtered : Nat) (now : Int) (c : Channel)
    (he : c.s_pad_enabled = true) :
    dispatch_channel filtered now c =
      (pressTick c (filtered, now),
       fired_for c.s_pad_state (pressTick c (filtered, now))) := by
  unfold dispatch_channel pressTick
  simp [he]

/-! ## Characterisations of the firing decision -/

/-- In `RISE` mode the fired list is the callback slot of the new class,
guarded by the new class being a real press that differs from the
snapshot. -/
theorem fired_for_rise (prev : BUTTON_STATE) (c : Channel)
    (hm : c.s_pad_trigger_mode = RISE) :
    fired_for prev c =
      if c.s_pad_state ≠ NO_PRESS ∧ c.s_pad_state ≠ prev
      then (c.s_pad_callback c.s_pad_state).toList
      else [] := by
  unfold fired_for
  by_cases h1 : c.s_pad_state = NO_PRESS <;> by_cases h2 : prev = c.s_pad_state <;>
    simp [hm, h1, h2, Ne.symm, ne_comm]

/-- In `FALL` mode the fired list is the callback slot of the snapshotted
class, guarded by the new class being `NO_PRESS` while the snapshot was
not. -/
theorem fired_for_fall (prev : BUTTON_STATE) (c : Channel)
    (hm : c.s_pad_trigger_mode = FALL) :
    fired_for prev c =
      if c.s_pad_state = NO_PRESS ∧ prev ≠ NO_PRESS
      then (c.s_pad_callback prev).toList
      else [] := by
  unfold fired_for
  by_cases h1 : c.s_pad_state = NO_PRESS <;> by_cases h2 : prev = NO_PRESS <;>
    simp [hm, h1, h2]

/-- At most one callback id ever appears in a `fired_for` list. -/
theorem fired_for_length (prev : BUTTON_STATE) (c : Channel) :
    (fired_for prev c).length ≤ 1 := by
  unfold fired_for
  split
  · split
    · cases c.s_pad_callback c.s_pad_state <;> simp
    · simp
  · split
    · split
      · cases c.s_pad_callback prev <;> simp
      · simp
    · simp

/-- A channel whose class is and stays `NO_PRESS` fires nothing in either
trigger mode. -/
theorem fired_for_inert (c : Channel) (h : c.s_pad_state = NO_PRESS) :
    fired_for NO_PRESS c = [] := by
  unfold fired_for
  simp [h]

end ESP32Touch

namespace ESP32Touch

/-! ## C1: configure_input and channel-id validation -/

/-- C1 counterexample: calling `configure_input` with the out-of-range
channel id `TOUCH_PAD_MAX` does not fail and does not leave the
configuration store unchanged — the pad entry at that id is enabled
(the source performs no range check and has no error path at all). -/
theorem C1_counterexample :
    ((configure_input bootState TOUCH_PAD_MAX 50 (some 7) SHORT_PRESSED RISE)
        TOUCH_PAD_MAX).s_pad_enabled = true ∧
    (bootState TOUCH_PAD_MAX).s_pad_enabled = false := by
  constructor <;> decide

/-- C1 (amended): `configure_input` performs no channel-id validation and
signals no error; for every channel id, in range or not, it enables the
channel, stores the callback for exactly the given duration class (other
slots and other pads untouched), records the threshold percent, resets the
duration class and sets the trigger mode. -/
theorem C1_theorem : ∀ (s : TouchState) (ch percent : Nat) (cb : Option Nat)
    (cls : BUTTON_STATE) (mode : TRIGGER_MODE),
    ((configure_input s ch percent cb cls mode) ch).s_pad_enabled = true ∧
    ((configure_input s ch percent cb cls mode) ch).s_pad_threshold_percent = percent ∧
    ((configure_input s ch percent cb cls mode) ch).s_pad_callback cls = cb ∧
    (∀ k : BUTTON_STATE, k ≠ cls →
      ((configure_input s ch percent cb cls mode) ch).s_pad_callback k =
        (s ch).s_pad_callback k) ∧
    ((configure_input s ch percent cb cls mode) ch).s_pad_state = NO_PRESS ∧
    ((configure_input s ch percent cb cls mode) ch).s_pad_trigger_mode = mode ∧
    (∀ j : Nat, j ≠ ch → (configure_input s ch percent cb cls mode) j = s j) := by
  intro s ch percent cb cls mode
  refine ⟨?_, ?_, ?_, ?_, ?_, ?_, ?_⟩
  · simp [configure_input]
  · simp [configure_input]
  · simp [configure_input]
  · intro k hk
    simp [configure_input, hk]
  · simp [configure_input]
  · simp [configure_input]
  · intro j hj
    simp [configure_input, hj]

/-- C1 witness: the amended behaviour at the concrete out-of-range channel
id 10 (`TOUCH_PAD_MAX`), starting from the boot store. -/
theorem C1_witness :
    ((configure_input bootState 10 50 (some 7) SHORT_PRESSED RISE)
        10).s_pad_enabled = true ∧
    MEDIUM_PRESSED ≠ SHORT_PRESSED ∧
    ((configure_input bootState 10 50 (some 7) SHORT_PRESSED RISE)
        10).s_pad_callback MEDIUM_PRESSED = (bootState 10).s_pad_callback MEDIUM_PRESSED ∧
    (3 : Nat) ≠ 10 ∧
    (configure_input bootState 10 50 (some 7) SHORT_PRESSED RISE) 3 = bootState 3 :=
  ⟨(C1_theorem bootState 10 50 (some 7) SHORT_PRESSED RISE).1,
   by decide,
   (C1_theorem bootState 10 50 (some 7) SHORT_PRESSED RISE).2.2.2.1
     MEDIUM_PRESSED (by decide),
   by decide,
   (C1_theorem bootState 10 50 (some 7) SHORT_PRESSED RISE).2.2.2.2.2.2
     3 (by decide)⟩

/-! ## C4: the classifier below the smallest boundary -/

/-- C4 counterexample: a pressed-continuation tick at 40 ms elapsed (below
the 50 ms `SHORT_PRESSED` boundary) leaves the duration class at
`NO_PRESS`; the classification step does not yield `SHORT_PRESSED`. -/
theorem C4_counterexample :
    c4Channel.s_pad_instantaneous_state = PRESSED ∧
    getInstantaneousButtonState c4Channel = PRESSED ∧
    40 - c4Channel.s_pad_initial_press_time < BUTTON_THRESHOLD_TIMES_MS SHORT_PRESSED ∧
    (updateButtonState 40 c4Channel).s_pad_instantaneous_state = PRESSED ∧
    (updateButtonState 40 c4Channel).s_pad_state = NO_PRESS ∧
    (updateButtonState 40 c4Channel).s_pad_state ≠ SHORT_PRESSED := by
  refine ⟨rfl, by decide, by decide, by decide, by decide, by decide⟩

/-- C4 (amended): on a pressed-continuation tick with elapsed time below
the `SHORT_PRESSED` boundary the classification step leaves the duration
class unchanged (it does not yield `SHORT_PRESSED`; on a fresh press it
stays `NO_PRESS`); the classifier never newly assigns `NO_PRESS` on a
pressed-continuation path — a resulting `NO_PRESS` can only be one that was
already there, so `NO_PRESS` arises only from the release transition. -/
theorem C4_theorem : ∀ (c : Channel) (now : Int),
    c.s_pad_instantaneous_state = PRESSED →
    c.s_pad_filtered_value < c.s_pad_threshold →
    ((now - c.s_pad_initial_press_time < BUTTON_THRESHOLD_TIMES_MS SHORT_PRESSED →
      (updateButtonState now c).s_pad_state = c.s_pad_state) ∧
     ((updateButtonState now c).s_pad_state = NO_PRESS →
      c.s_pad_state = NO_PRESS)) := by
  intro c now hinst hf
  have h := pressTick_pressed c c.s_pad_filtered_value now hinst hf
  have hc : { c with s_pad_filtered_value := c.s_pad_filtered_value } = c := rfl
  rw [pressTick, hc] at h
  rw [h]
  constructor
  · intro hlt
    show classifyStep c.s_pad_state (now - c.s_pad_initial_press_time) = c.s_pad_state
    simp only [classifyStep, BUTTON_THRESHOLD_TIMES_MS] at *
    split_ifs <;> first | rfl | omega
  · intro hnp
    have hcs : classifyStep c.s_pad_state (now - c.s_pad_initial_press_time) = NO_PRESS := hnp
    unfold classifyStep at hcs
    split_ifs at hcs
    simp_all

/-- C4 witness: the amended statement at the concrete channel of the
counterexample and at a 40 ms tick. -/
theorem C4_witness :
    c4Channel.s_pad_instantaneous_state = PRESSED ∧
    c4Channel.s_pad_filtered_value < c4Channel.s_pad_threshold ∧
    ((40 - c4Channel.s_pad_initial_press_time < BUTTON_THRESHOLD_TIMES_MS SHORT_PRESSED →
      (updateButtonState 40 c4Channel).s_pad_state = c4Channel.s_pad_state) ∧
     ((updateButtonState 40 c4Channel).s_pad_state = NO_PRESS →
      c4Channel.s_pad_state = NO_PRESS)) :=
  ⟨rfl, by decide, C4_theorem c4Channel 40 rfl (by decide)⟩

/-! ## C5: disable after configure versus a fresh channel -/

/-- C5 counterexample: `configure_input` with threshold percent 50 followed
by `disableButton` leaves the threshold percent at 50, while the freshly
initialized channel of the boot store has threshold percent 0 — the
round-tripped channel is distinguishable from a fresh one. -/
theorem C5_counterexample :
    ((disableButton (configure_input bootState 0 50 (some 7) SHORT_PRESSED RISE) 0)
        0).s_pad_threshold_percent = 50 ∧
    (bootState 0).s_pad_threshold_percent = 0 ∧
    ((disableButton (configure_input bootState 0 50 (some 7) SHORT_PRESSED RISE) 0)
        0).s_pad_trigger_mode = RISE ∧
    ((disableButton (configure_input bootState 0 50 (some 7) SHORT_PRESSED FALL) 0)
        0).s_pad_trigger_mode = FALL := by
  refine ⟨by decide, by decide, by decide, by decide⟩

/-- C5 (amended): `configure_input` followed by `disableButton` on the same
channel restores the enabled flag, the legacy pressed flag, every callback
slot and the duration class to the freshly-initialized values, but the
threshold percent and trigger mode keep the configured values, and the
threshold, instantaneous state and initial press time are untouched by
both calls — the channel is not fully indistinguishable from a freshly
initialized one. -/
theorem C5_theorem : ∀ (s : TouchState) (ch percent : Nat) (cb : Option Nat)
    (cls : BUTTON_STATE) (mode : TRIGGER_MODE),
    ((disableButton (configure_input s ch percent cb cls mode) ch) ch).s_pad_enabled = false ∧
    ((disableButton (configure_input s ch percent cb cls mode) ch) ch).s_pad_is_pressed = false ∧
    (∀ k : BUTTON_STATE,
      ((disableButton (configure_input s ch percent cb cls mode) ch) ch).s_pad_callback k = none) ∧
    ((disableButton (configure_input s ch percent cb cls mode) ch) ch).s_pad_state = NO_PRESS ∧
    ((disableButton (configure_input s ch percent cb cls mode) ch) ch).s_pad_threshold_percent = percent ∧
    ((disableButton (configure_input s ch percent cb cls mode) ch) ch).s_pad_trigger_mode = mode ∧
    ((disableButton (configure_input s ch percent cb cls mode) ch) ch).s_pad_threshold = (s ch).s_pad_threshold ∧
    ((disableButton (configure_input s ch percent cb cls mode) ch) ch).s_pad_instantaneous_state = (s ch).s_pad_instantaneous_state ∧
    ((disableButton (configure_input s ch percent cb cls mode) ch) ch).s_pad_initial_press_time = (s ch).s_pad_initial_press_time := by
  intro s ch percent cb cls mode
  refine ⟨?_, ?_, ?_, ?_, ?_, ?_, ?_, ?_, ?_⟩ <;>
    simp [disableButton, configure_input]

end ESP32Touch

namespace ESP32Touch

/-! ## C2: RISE-mode firing -/

/-- In RISE mode, a run of ticks along which the duration class never
changes fires nothing and ends in the same class. -/
theorem runDispatch_rise_steady : ∀ (ticks : List (Nat × Int)) (c : Channel),
    c.s_pad_enabled = true →
    c.s_pad_trigger_mode = RISE →
    classTrace c ticks = List.replicate ticks.length c.s_pad_state →
    (runDispatch c ticks).2 = [] ∧
    (runDispatch c ticks).1.s_pad_state = c.s_pad_state := by
  intro ticks
  induction ticks with
  | nil => intro c he hm htrace; exact ⟨rfl, rfl⟩
  | cons t ts ih =>
    intro c he hm htrace
    rw [classTrace, List.length_cons, List.replicate_succ, List.cons.injEq] at htrace
    obtain ⟨hhead, htail⟩ := htrace
    have hp := pressTick_preserves c t
    have he1 : (pressTick c t).s_pad_enabled = true := hp.1.trans he
    have hm1 : (pressTick c t).s_pad_trigger_mode = RISE := hp.2.2.2.trans hm
    have hfired : fired_for c.s_pad_state (pressTick c t) = [] := by
      rw [fired_for_rise _ _ hm1, hhead]
      simp
    have hrest := ih (pressTick c t) he1 hm1 (by rw [htail, hhead])
    rw [runDispatch, dispatch_channel_enabled t.1 t.2 c he]
    constructor
    · show fired_for c.s_pad_state (pressTick c t) ++ (runDispatch (pressTick c t) ts).2 = []
      rw [hfired, hrest.1]
      rfl
    · show (runDispatch (pressTick c t) ts).1.s_pad_state = c.s_pad_state
      rw [hrest.2, hhead]

/-- C2: on an enabled RISE-mode channel, a dispatch tick fires exactly the
callback registered for the new duration class when that class is not
`NO_PRESS` and differs from the pre-tick snapshot (and nothing otherwise,
an empty slot firing nothing); consequently a channel held continuously in
one class across five consecutive ticks fires that class's callback
exactly once, at the tick where the class changed. -/
theorem C2_theorem :
    (∀ (c : Channel) (filtered : Nat) (now : Int),
      c.s_pad_enabled = true →
      c.s_pad_trigger_mode = RISE →
      (dispatch_channel filtered now c).2 =
        if (dispatch_channel filtered now c).1.s_pad_state ≠ NO_PRESS ∧
           (dispatch_channel filtered now c).1.s_pad_state ≠ c.s_pad_state
        then (c.s_pad_callback (dispatch_channel filtered now c).1.s_pad_state).toList
        else []) ∧
    (∀ (c : Channel) (f1 f2 f3 f4 f5 : Nat) (n1 n2 n3 n4 n5 : Int)
        (cl : BUTTON_STATE) (cb : Nat),
      c.s_pad_enabled = true →
      c.s_pad_trigger_mode = RISE →
      c.s_pad_callback cl = some cb →
      c.s_pad_state ≠ cl →
      cl ≠ NO_PRESS →
      classTrace c [(f1, n1), (f2, n2), (f3, n3), (f4, n4), (f5, n5)] =
        [cl, cl, cl, cl, cl] →
      (runDispatch c [(f1, n1), (f2, n2), (f3, n3), (f4, n4), (f5, n5)]).2 = [cb]) := by
  constructor
  · intro c filtered now he hm
    rw [dispatch_channel_enabled filtered now c he]
    have hp := pressTick_preserves c (filtered, now)
    have hm1 : (pressTick c (filtered, now)).s_pad_trigger_mode = RISE :=
      hp.2.2.2.trans hm
    show fired_for c.s_pad_state (pressTick c (filtered, now)) = _
    rw [fired_for_rise _ _ hm1, hp.2.2.1]
  · intro c f1 f2 f3 f4 f5 n1 n2 n3 n4 n5 cl cb he hm hcb hne hcl htrace
    rw [classTrace, List.cons.injEq] at htrace
    obtain ⟨hhead, htail⟩ := htrace
    have hp := pressTick_preserves c (f1, n1)
    have he1 : (pressTick c (f1, n1)).s_pad_enabled = true := hp.1.trans he
    have hm1 : (pressTick c (f1, n1)).s_pad_trigger_mode = RISE := hp.2.2.2.trans hm
    have hfired1 : fired_for c.s_pad_state (pressTick c (f1, n1)) = [cb] := by
      rw [fired_for_rise _ _ hm1, hhead, if_pos ⟨hcl, Ne.symm hne⟩, hp.2.2.1, hcb]
      rfl
    have hsteady := runDispatch_rise_steady
      [(f2, n2), (f3, n3), (f4, n4), (f5, n5)] (pressTick c (f1, n1)) he1 hm1
      (by rw [htail, hhead]; rfl)
    rw [runDispatch, dispatch_channel_enabled f1 n1 c he]
    show fired_for c.s_pad_state (pressTick c (f1, n1)) ++
      (runDispatch (pressTick c (f1, n1)) [(f2, n2), (f3, n3), (f4, n4), (f5, n5)]).2 = [cb]
    rw [hfired1, hsteady.1]
    rfl

/-- C2 witness: the concrete RISE channel held in `SHORT_PRESSED` across
five ticks fires its callback id 7 exactly once. -/
theorem C2_witness :
    riseChannel.s_pad_enabled = true ∧
    riseChannel.s_pad_trigger_mode = RISE ∧
    ((dispatch_channel 80 60 riseChannel).2 =
      if (dispatch_channel 80 60 riseChannel).1.s_pad_state ≠ NO_PRESS ∧
         (dispatch_channel 80 60 riseChannel).1.s_pad_state ≠ riseChannel.s_pad_state
      then (riseChannel.s_pad_callback (dispatch_channel 80 60 riseChannel).1.s_pad_state).toList
      else []) ∧
    riseChannel.s_pad_callback SHORT_PRESSED = some 7 ∧
    classTrace riseChannel [(80, 60), (80, 80), (80, 100), (80, 120), (80, 140)] =
      [SHORT_PRESSED, SHORT_PRESSED, SHORT_PRESSED, SHORT_PRESSED, SHORT_PRESSED] ∧
    (runDispatch riseChannel [(80, 60), (80, 80), (80, 100), (80, 120), (80, 140)]).2 = [7] :=
  ⟨by decide, by decide,
   C2_theorem.1 riseChannel 80 60 (by decide) (by decide),
   by decide, by decide,
   C2_theorem.2 riseChannel 80 80 80 80 80 60 80 100 120 140 SHORT_PRESSED 7
     (by decide) (by decide) (by decide) (by decide) (by decide) (by decide)⟩

/-! ## C3: FALL-mode firing -/

/-- C3: on an enabled FALL-mode channel, a dispatch tick fires exactly the
callback registered for the snapshotted (previous) duration class when the
new class is `NO_PRESS` and the previous one was not — so nothing fires
while the press is held, and a release whose previous class is still
`NO_PRESS` fires nothing. -/
theorem C3_theorem : ∀ (c : Channel) (filtered : Nat) (now : Int),
    c.s_pad_enabled = true →
    c.s_pad_trigger_mode = FALL →
    (dispatch_channel filtered now c).2 =
      if (dispatch_channel filtered now c).1.s_pad_state = NO_PRESS ∧
         c.s_pad_state ≠ NO_PRESS
      then (c.s_pad_callback c.s_pad_state).toList
      else [] := by
  intro c filtered now he hm
  rw [dispatch_channel_enabled filtered now c he]
  have hp := pressTick_preserves c (filtered, now)
  have hm1 : (pressTick c (filtered, now)).s_pad_trigger_mode = FALL :=
    hp.2.2.2.trans hm
  show fired_for c.s_pad_state (pressTick c (filtered, now)) = _
  rw [fired_for_fall _ _ hm1, hp.2.2.1]

/-- C3 witness: the concrete FALL channel held in `MEDIUM_PRESSED`, on a
release tick, fires the `MEDIUM_PRESSED` callback id 9. -/
theorem C3_witness :
    fallChannel.s_pad_enabled = true ∧
    fallChannel.s_pad_trigger_mode = FALL ∧
    ((dispatch_channel 200 420 fallChannel).2 =
      if (dispatch_channel 200 420 fallChannel).1.s_pad_state = NO_PRESS ∧
         fallChannel.s_pad_state ≠ NO_PRESS
      then (fallChannel.s_pad_callback fallChannel.s_pad_state).toList
      else []) ∧
    (dispatch_channel 200 420 fallChannel).2 = [9] :=
  ⟨by decide, by decide,
   C3_theorem fallChannel 200 420 (by decide) (by decide),
   by decide⟩

/-! ## C8: at most one callback per channel per tick -/

/-- C8: each dispatch iteration invokes at most one callback per channel,
and the RISE firing condition and the FALL firing condition can never hold
together on the same tick. -/
theorem C8_theorem : ∀ (c : Channel) (filtered : Nat) (now : Int),
    (dispatch_channel filtered now c).2.length ≤ 1 ∧
    ¬(((dispatch_channel filtered now c).1.s_pad_state ≠ NO_PRESS ∧
       (dispatch_channel filtered now c).1.s_pad_state ≠ c.s_pad_state) ∧
      ((dispatch_channel filtered now c).1.s_pad_state = NO_PRESS ∧
       c.s_pad_state ≠ NO_PRESS)) := by
  intro c filtered now
  constructor
  · by_cases he : c.s_pad_enabled = true
    · rw [dispatch_channel_enabled filtered now c he]
      exact fired_for_length _ _
    · unfold dispatch_channel
      simp [he]
  · rintro ⟨⟨h1, -⟩, ⟨h2, -⟩⟩
    exact h1 h2

end ESP32Touch

namespace ESP32Touch

/-! ## C6: monotonicity of classification within one continuous press -/

/-- One classifier step cannot lower the rank, provided the current class
is justified by some earlier elapsed time of the same press, and the
result stays justified by the new elapsed time. -/
theorem classifyStep_rank_step (prev : BUTTON_STATE) (d1 d2 : Int) (h12 : d1 ≤ d2)
    (hinv : rank prev ≤ rank (classifyStep NO_PRESS d1)) :
    rank prev ≤ rank (classifyStep prev d2) ∧
    rank (classifyStep prev d2) ≤ rank (classifyStep NO_PRESS d2) := by
  cases prev <;>
    (unfold classifyStep BUTTON_THRESHOLD_TIMES_MS at *
     split_ifs at * <;> simp_all [rank] <;> omega)

/-- Along any run of pressed-continuation ticks with non-decreasing clock
readings, the duration-class ranks form a non-decreasing chain. -/
theorem chain_rank_aux : ∀ (ticks : List (Nat × Int)) (c : Channel) (n0 : Int),
    c.s_pad_instantaneous_state = PRESSED →
    (∀ t ∈ ticks, t.1 < c.s_pad_threshold) →
    List.Chain (· ≤ ·) n0 (ticks.map Prod.snd) →
    rank c.s_pad_state ≤ rank (classifyStep NO_PRESS (n0 - c.s_pad_initial_press_time)) →
    List.Chain (fun a b => rank a ≤ rank b) c.s_pad_state (classTrace c ticks) := by
  intro ticks
  induction ticks with
  | nil => intro c n0 _ _ _ _; exact List.Chain.nil
  | cons t ts ih =>
    intro c n0 hinst hpress hchain hinv
    obtain ⟨f, n⟩ := t
    rw [List.map_cons, List.chain_cons] at hchain
    obtain ⟨hn0, hchain2⟩ := hchain
    have hf : f < c.s_pad_threshold := hpress (f, n) (by simp)
    have hPT := pressTick_pressed c f n hinst hf
    have hstep := classifyStep_rank_step c.s_pad_state
      (n0 - c.s_pad_initial_press_time) (n - c.s_pad_initial_press_time)
      (by omega) hinv
    rw [classTrace]
    apply List.Chain.cons
    · rw [hPT]
      exact hstep.1
    · apply ih (pressTick c (f, n)) n
      · rw [hPT]
      · intro u hu
        rw [hPT]
        exact hpress u (by simp [hu])
      · exact hchain2
      · rw [hPT]
        exact hstep.2

/-- C6: within one continuous press — a rising edge followed by ticks that
all read below threshold, with non-decreasing clock readings — the channel
duration class is monotonically non-decreasing in the
`NO_PRESS < SHORT_PRESSED < MEDIUM_PRESSED < LONG_PRESSED` rank order:
once a longer class is reached it never regresses on a later tick. -/
theorem C6_theorem : ∀ (c : Channel) (f0 : Nat) (n0 : Int) (ticks : List (Nat × Int)),
    c.s_pad_instantaneous_state = NOT_PRESSED →
    c.s_pad_state = NO_PRESS →
    f0 < c.s_pad_threshold →
    (∀ t ∈ ticks, t.1 < c.s_pad_threshold) →
    List.Chain (· ≤ ·) n0 (ticks.map Prod.snd) →
    List.Chain (fun a b => rank a ≤ rank b)
      (pressTick c (f0, n0)).s_pad_state
      (classTrace (pressTick c (f0, n0)) ticks) := by
  intro c f0 n0 ticks hinst hstate hf0 hpress hchain
  have hPT := pressTick_risingEdge c f0 n0 hinst hf0
  apply chain_rank_aux ticks (pressTick c (f0, n0)) n0
  · rw [hPT]
  · intro u hu
    rw [hPT]
    exact hpress u hu
  · exact hchain
  · rw [hPT, hstate]
    simp [rank]

/-- C6 witness: a concrete press on `sampleChannel` — rising edge at time
0, continuation ticks at 60 ms and 2100 ms — yields a non-decreasing class
chain. -/
theorem C6_witness :
    sampleChannel.s_pad_instantaneous_state = NOT_PRESSED ∧
    sampleChannel.s_pad_state = NO_PRESS ∧
    80 < sampleChannel.s_pad_threshold ∧
    List.Chain (· ≤ ·) 0 ([((80 : Nat), (60 : Int)), (80, 2100)].map Prod.snd) ∧
    List.Chain (fun a b => rank a ≤ rank b)
      (pressTick sampleChannel (80, 0)).s_pad_state
      (classTrace (pressTick sampleChannel (80, 0)) [(80, 60), (80, 2100)]) :=
  ⟨rfl, rfl, by decide,
   List.Chain.cons (by decide) (List.Chain.cons (by decide) List.Chain.nil),
   C6_theorem sampleChannel 80 0 [(80, 60), (80, 2100)] rfl rfl (by decide) (by decide)
     (List.Chain.cons (by decide) (List.Chain.cons (by decide) List.Chain.nil))⟩

end ESP32Touch

namespace ESP32Touch

/-! ## C7: calibration arithmetic -/

/-- C7: for enabled in-range pads `calibrate_thresholds` stores exactly
`baseline * threshold_percent / 100` with truncating natural division
(the `uint16_t` narrowing is the identity when the percent is at most 100
and the baseline is a `uint16_t` value); disabled pads are untouched; and
recalibrating with identical baselines yields identical thresholds. -/
theorem C7_theorem : ∀ (s : TouchState) (baseline : Nat → Nat) (i : Nat),
    i < TOUCH_PAD_MAX →
    (s i).s_pad_threshold_percent ≤ 100 →
    baseline i < 65536 →
    ((s i).s_pad_enabled = true →
      (calibrate_thresholds baseline s i).s_pad_threshold =
        baseline i * (s i).s_pad_threshold_percent / 100) ∧
    ((s i).s_pad_enabled = false → calibrate_thresholds baseline s i = s i) ∧
    (calibrate_thresholds baseline (calibrate_thresholds baseline s) i).s_pad_threshold =
      (calibrate_thresholds baseline s i).s_pad_threshold := by
  intro s baseline i hi hp hb
  have hlt : baseline i * (s i).s_pad_threshold_percent / 100 < 65536 := by
    have h1 : baseline i * (s i).s_pad_threshold_percent ≤ baseline i * 100 :=
      Nat.mul_le_mul_left _ hp
    omega
  refine ⟨?_, ?_, ?_⟩
  · intro he
    unfold calibrate_thresholds
    rw [if_pos ⟨hi, he⟩]
    exact Nat.mod_eq_of_lt hlt
  · intro he
    unfold calibrate_thresholds
    have hn : ¬(i < TOUCH_PAD_MAX ∧ (s i).s_pad_enabled = true) := by
      rintro ⟨-, h2⟩
      rw [he] at h2
      exact absurd h2 (by decide)
    rw [if_neg hn]
  · by_cases hen : (s i).s_pad_enabled = true
    · simp [calibrate_thresholds, hi, hen]
    · simp [calibrate_thresholds, hi, hen]

/-- C7 witness: the concrete store with pad 3 configured at 50 percent and
a baseline of 600. -/
theorem C7_witness :
    (3 : Nat) < TOUCH_PAD_MAX ∧
    (calibDemoState 3).s_pad_threshold_percent ≤ 100 ∧
    (600 : Nat) < 65536 ∧
    (((calibDemoState 3).s_pad_enabled = true →
      (calibrate_thresholds (fun _ => 600) calibDemoState 3).s_pad_threshold =
        600 * (calibDemoState 3).s_pad_threshold_percent / 100) ∧
     ((calibDemoState 3).s_pad_enabled = false →
      calibrate_thresholds (fun _ => 600) calibDemoState 3 = calibDemoState 3) ∧
     (calibrate_thresholds (fun _ => 600)
        (calibrate_thresholds (fun _ => 600) calibDemoState) 3).s_pad_threshold =
       (calibrate_thresholds (fun _ => 600) calibDemoState 3).s_pad_threshold) :=
  ⟨by decide, by decide, by decide,
   C7_theorem calibDemoState (fun _ => 600) 3 (by decide) (by decide) (by decide)⟩

/-! ## C9: the rising-edge tick -/

/-- C9: after any tick a `NOT_PRESSED` instantaneous state entails a
`NO_PRESS` class (the invariant justifying the second part); and on a
rising-edge tick — filtered value below threshold while the stored
instantaneous state is `NOT_PRESSED` — the state machine records the press
start time `now`, ends the tick with class `NO_PRESS`, and switches the
instantaneous state to `PRESSED`, so classification from elapsed time can
only begin on the following pressed-continuation tick. -/
theorem C9_theorem :
    (∀ (c : Channel) (f : Nat) (n : Int),
      (pressTick c (f, n)).s_pad_instantaneous_state = NOT_PRESSED →
      (pressTick c (f, n)).s_pad_state = NO_PRESS) ∧
    (∀ (c : Channel) (f : Nat) (n : Int),
      (c.s_pad_instantaneous_state = NOT_PRESSED → c.s_pad_state = NO_PRESS) →
      f < c.s_pad_threshold →
      c.s_pad_instantaneous_state = NOT_PRESSED →
      (pressTick c (f, n)).s_pad_initial_press_time = n ∧
      (pressTick c (f, n)).s_pad_state = NO_PRESS ∧
      (pressTick c (f, n)).s_pad_instantaneous_state = PRESSED) := by
  constructor
  · intro c f n hinst
    by_cases hf : f < c.s_pad_threshold
    · exfalso
      by_cases h2 : c.s_pad_instantaneous_state = NOT_PRESSED
      · rw [pressTick_risingEdge c f n h2 hf] at hinst
        simp at hinst
      · have h3 : c.s_pad_instantaneous_state = PRESSED := by
          cases hc : c.s_pad_instantaneous_state <;> simp_all
        rw [pressTick_pressed c f n h3 hf] at hinst
        simp at hinst
    · rw [pressTick_release c f n hf]
  · intro c f n hinv hf hinst
    rw [pressTick_risingEdge c f n hinst hf]
    exact ⟨rfl, hinv hinst, rfl⟩

/-- C9 witness: a rising edge on `sampleChannel` at filtered value 80 and
time 37. -/
theorem C9_witness :
    (sampleChannel.s_pad_instantaneous_state = NOT_PRESSED →
      sampleChannel.s_pad_state = NO_PRESS) ∧
    80 < sampleChannel.s_pad_threshold ∧
    sampleChannel.s_pad_instantaneous_state = NOT_PRESSED ∧
    ((pressTick sampleChannel (80, 37)).s_pad_initial_press_time = 37 ∧
     (pressTick sampleChannel (80, 37)).s_pad_state = NO_PRESS ∧
     (pressTick sampleChannel (80, 37)).s_pad_instantaneous_state = PRESSED) :=
  ⟨fun _ => rfl, by decide, rfl,
   C9_theorem.2 sampleChannel 80 37 (fun _ => rfl) (by decide) rfl⟩

/-! ## C10: a never-calibrated channel is inert -/

/-- A channel whose threshold is 0 and whose class is `NO_PRESS` stays in
class `NO_PRESS` and never fires across any run of dispatch ticks. -/
theorem runDispatch_inert : ∀ (ticks : List (Nat × Int)) (c : Channel),
    c.s_pad_threshold = 0 → c.s_pad_state = NO_PRESS →
    (runDispatch c ticks).2 = [] ∧
    (runDispatch c ticks).1.s_pad_state = NO_PRESS := by
  intro ticks
  induction ticks with
  | nil => intro c h0 hs; exact ⟨rfl, hs⟩
  | cons t ts ih =>
    intro c h0 hs
    obtain ⟨f, n⟩ := t
    have hf : ¬ f < c.s_pad_threshold := by omega
    have hPT := pressTick_release c f n hf
    by_cases he : c.s_pad_enabled = true
    · rw [runDispatch, dispatch_channel_enabled f n c he]
      have hstate1 : (pressTick c (f, n)).s_pad_state = NO_PRESS := by rw [hPT]
      have hthr1 : (pressTick c (f, n)).s_pad_threshold = 0 := by rw [hPT]; exact h0
      have hrest := ih (pressTick c (f, n)) hthr1 hstate1
      constructor
      · show fired_for c.s_pad_state (pressTick c (f, n)) ++
          (runDispatch (pressTick c (f, n)) ts).2 = []
        rw [hs, fired_for_inert _ hstate1, hrest.1]
        rfl
      · exact hrest.2
    · have hd : dispatch_channel f n c = (c, []) := by
        unfold dispatch_channel
        rw [if_neg he]
      rw [runDispatch, hd]
      have hrest := ih c h0 hs
      exact ⟨by rw [List.nil_append, hrest.1], hrest.2⟩

/-- C10: an enabled channel whose threshold still holds the inert default
0 computes `NOT_PRESSED` for every filtered value (an unsigned value is
never strictly below 0), keeps its duration class at `NO_PRESS`, and never
fires a callback over any sequence of dispatch ticks. -/
theorem C10_theorem : ∀ (c : Channel) (ticks : List (Nat × Int)),
    c.s_pad_enabled = true →
    c.s_pad_threshold = 0 →
    c.s_pad_state = NO_PRESS →
    (∀ f : Nat, getInstantaneousButtonState
        { c with s_pad_filtered_value := f } = NOT_PRESSED) ∧
    (runDispatch c ticks).2 = [] ∧
    (runDispatch c ticks).1.s_pad_state = NO_PRESS := by
  intro c ticks he h0 hs
  refine ⟨?_, (runDispatch_inert ticks c h0 hs).1, (runDispatch_inert ticks c h0 hs).2⟩
  intro f
  unfold getInstantaneousButtonState
  simp [h0]

/-- C10 witness: the concrete never-calibrated channel with a callback in
every slot over three ticks, one of them with a nonzero filtered value. -/
theorem C10_witness :
    neverCalibratedChannel.s_pad_enabled = true ∧
    neverCalibratedChannel.s_pad_threshold = 0 ∧
    neverCalibratedChannel.s_pad_state = NO_PRESS ∧
    getInstantaneousButtonState
      { neverCalibratedChannel with s_pad_filtered_value := 0 } = NOT_PRESSED ∧
    (runDispatch neverCalibratedChannel [(0, 10), (0, 30), (5, 50)]).2 = [] ∧
    (runDispatch neverCalibratedChannel [(0, 10), (0, 30), (5, 50)]).1.s_pad_state = NO_PRESS :=
  ⟨rfl, rfl, rfl,
   (C10_theorem neverCalibratedChannel [(0, 10), (0, 30), (5, 50)] rfl rfl rfl).1 0,
   (C10_theorem neverCalibratedChannel [(0, 10), (0, 30), (5, 50)] rfl rfl rfl).2.1,
   (C10_theorem neverCalibratedChannel [(0, 10), (0, 30), (5, 50)] rfl rfl rfl).2.2⟩

end ESP32Touch
